import Mathlib

/-!
Shallow embedding of the Expense-Tracker server (`src/main.py`) and proofs
checking its natural-language specification against the code.

Modelling conventions:
* SQLite `REAL` amounts are modelled as exact rationals (`ℚ`).
* SQLite `TEXT` dates are kept as strings; SQLite compares `TEXT` byte-wise,
  modelled by the structural lexicographic order `strLe` / `strLt` below
  (identical to byte order on the ASCII strings involved).
* Python exceptions are modelled with `Except String`: an `.error` result is a
  raised exception, and — because every write runs inside a transaction that
  rolls back on failure (`get_db_connection`) — an erroring call returns no
  successor state.
* `aiosqlite` rows and Python result dicts are modelled as Lean structures;
  the constant `"message"` strings of the result dicts are omitted.
-/

set_option maxHeartbeats 1000000

namespace ExpenseTracker

/-- Lexicographic (byte-wise, for ASCII) comparison of character lists,
modelling SQLite TEXT comparison. Structural, so kernel-reducible. -/
def charListLt : List Char → List Char → Bool
  | [], [] => false
  | [], _ :: _ => true
  | _ :: _, [] => false
  | a :: as, b :: bs => a < b || (a = b && charListLt as bs)

/-- SQLite `<` on TEXT values (byte order; coincides with lexicographic
code-point order on the ASCII date strings this program uses). -/
def strLt (a b : String) : Bool := charListLt a.data b.data

/-- SQLite `<=` / `>=` on TEXT values. -/
def strLe (a b : String) : Bool := !(strLt b a)

/-- Python `str.lower()` (kernel-reducible version of `String.toLower`,
character-wise `Char.toLower`; identical on the ASCII data involved). -/
def pyLower (s : String) : String := ⟨s.data.map Char.toLower⟩

/-- Python `str.strip()`: drop leading and trailing whitespace. -/
def pyStrip (s : String) : String :=
  ⟨((s.data.dropWhile Char.isWhitespace).reverse.dropWhile Char.isWhitespace).reverse⟩

/-- The vocabulary loaded from `resources/categories.json`: a JSON object,
i.e. an ordered association list from category to its ordered subcategory
list (Python dicts preserve insertion order). -/
abbrev Vocab := List (String × List String)

/-- Python `categories[k]` / `k in categories`: first binding of the key. -/
def lookupV (v : Vocab) (k : String) : Option (List String) :=
  (v.find? (fun p => p.1 == k)).map (·.2)

/-- Modelled from the spec: the file `resources/categories.json` is not under
`src/`, so its contents are reconstructed from the spec (§4.2, §8): the
fallback key `"misc"` exists, every category has a nonempty ordered
subcategory list, `"other"` is used as default when present, and `"food"`
(with subcategory `"groceries"`) is the category used by the spec's concrete
scenarios. -/
def specVocab : Vocab :=
  [("food", ["groceries", "restaurant", "other"]),
   ("transport", ["fuel", "taxi", "other"]),
   ("misc", ["other"])]

/-- Modelled from the spec: the file `resources/saving_sources.json` is not
under `src/`; the spec (§4.2) says it is an ordered list of sources with the
same `"other"`-fallback policy. -/
def specSources : List String := ["salary", "bonus", "other"]

/-- Well-formedness of a loaded vocabulary, as the spec's §4.2 guarantees
implicitly require: the fallback key `"misc"` is present and every
subcategory list is nonempty. -/
def WFVocab (v : Vocab) : Prop :=
  (lookupV v "misc").isSome ∧ ∀ p ∈ v, p.2 ≠ []

instance : DecidablePred WFVocab := fun v => by
  unfold WFVocab; infer_instance

/-- Subcategory selection of `validate_category` (src/main.py:145-154): an
empty or unknown subcategory falls back to `"other"` when available, else to
the first entry (the source spells the fallback block twice, for the
`if not normalized_subcategory` and the `elif ... not in ...` branches, with
identical bodies); a known subcategory is kept.  `IndexError` (empty list)
is an `.error`. -/
def pickSub (avail : List String) (ns : String) : Except String String :=
  if ns = "" then
    if "other" ∈ avail then .ok "other"
    else
      match avail with
      | [] => .error "IndexError"
      | a :: _ => .ok a
  else if ns ∈ avail then .ok ns
  else if "other" ∈ avail then .ok "other"
  else
    match avail with
    | [] => .error "IndexError"
    | a :: _ => .ok a

/-- Embedding of `validate_category` (src/main.py:129-156).  Strips and
lowercases both inputs, falls back to `"misc"` for an empty/unknown category,
and picks the subcategory via `pickSub`.  A `KeyError` (when `"misc"` is not
a key of the loaded mapping) is an `.error`. -/
def validate_category (vocab : Vocab) (category : String) (subcategory : Option String) :
    Except String (String × String) :=
  let nc0 := pyLower (pyStrip category)
  let ns := pyLower (pyStrip (subcategory.getD ""))
  let nc := if (lookupV vocab nc0).isSome then nc0 else "misc"
  match lookupV vocab nc with
  | none => .error "KeyError"
  | some avail => (pickSub avail ns).map (fun s => (nc, s))

/-- Embedding of `validate_saving_source` (src/main.py:159-170). -/
def validate_saving_source (sources : List String) (source : String) :
    Except String String :=
  let ns := pyLower (pyStrip source)
  if ns = "" then
    if "other" ∈ sources then .ok "other"
    else match sources with
      | [] => .error "IndexError"
      | a :: _ => .ok a
  else if ns ∉ sources then
    if "other" ∈ sources then .ok "other"
    else match sources with
      | [] => .error "IndexError"
      | a :: _ => .ok a
  else .ok ns

/-- Calendar date as parsed by `datetime.strptime(s, "%Y-%m-%d")`. -/
structure PyDate where
  year : Nat
  month : Nat
  day : Nat
deriving DecidableEq

/-- Gregorian leap-year rule used by `datetime` for day-of-month validation. -/
def isLeapYear (y : Nat) : Bool := y % 4 = 0 && (y % 100 ≠ 0 || y % 400 = 0)

/-- Days in a month, as validated by `datetime`. -/
def daysInMonth (y m : Nat) : Nat :=
  if m = 2 then (if isLeapYear y then 29 else 28)
  else if m = 4 ∨ m = 6 ∨ m = 9 ∨ m = 11 then 30
  else 31

/-- Numeric value of a decimal digit character. -/
def digitVal (c : Char) : Option Nat :=
  if c.isDigit then some (c.toNat - '0'.toNat) else none

/-- Embedding of `datetime.strptime(s, "%Y-%m-%d")` restricted to the
zero-padded `YYYY-MM-DD` shape the program reads and writes; `none` models
the `ValueError` strptime raises on malformed input. -/
def parseDate (s : String) : Option PyDate :=
  match s.data with
  | [y1, y2, y3, y4, h1, m1, m2, h2, d1, d2] =>
    if h1 = '-' ∧ h2 = '-' then
      match digitVal y1, digitVal y2, digitVal y3, digitVal y4,
            digitVal m1, digitVal m2, digitVal d1, digitVal d2 with
      | some a, some b, some c, some d, some e, some f, some g, some h =>
        let y := 1000 * a + 100 * b + 10 * c + d
        let m := 10 * e + f
        let dd := 10 * g + h
        if 1 ≤ y ∧ 1 ≤ m ∧ m ≤ 12 ∧ 1 ≤ dd ∧ dd ≤ daysInMonth y m then
          some ⟨y, m, dd⟩
        else none
      | _, _, _, _, _, _, _, _ => none
    else none
  | _ => none

/-- Embedding of `months_between` (src/main.py:173-177):
`(end.year - start.year) * 12 + (end.month - start.month)` on parsed dates;
`.error` models the `ValueError` raised on malformed input. -/
def months_between (start_date end_date : String) : Except String Int :=
  match parseDate start_date, parseDate end_date with
  | some s, some e =>
    .ok (((e.year : Int) - (s.year : Int)) * 12 + ((e.month : Int) - (s.month : Int)))
  | _, _ => .error "ValueError"

/-- Round a rational to the nearest integer, ties to even — the semantics of
Python 3 `round` (banker's rounding; amounts are modelled as exact rationals,
so the decimal reading of `round` applies). -/
def roundHalfEven (q : ℚ) : ℤ :=
  if q - ⌊q⌋ < 1 / 2 then ⌊q⌋
  else if q - ⌊q⌋ > 1 / 2 then ⌊q⌋ + 1
  else if ⌊q⌋ % 2 = 0 then ⌊q⌋ else ⌊q⌋ + 1

/-- Python `round(x, 2)`: round to two decimal places. -/
def round2 (q : ℚ) : ℚ := (roundHalfEven (q * 100) : ℚ) / 100

/-- Row of the `expenses` table (src/main.py:80-89). -/
structure Expense where
  id : Nat
  date : String
  amount : ℚ
  category : String
  subcategory : String
  note : String
deriving DecidableEq

/-- Row of the `savings` table (src/main.py:92-100). -/
structure Saving where
  id : Nat
  date : String
  amount : ℚ
  source : String
  note : String
deriving DecidableEq

/-- Row of the `saving_goals` table (src/main.py:103-112). -/
structure SavingGoal where
  id : Nat
  name : String
  target_amount : ℚ
  start_date : String
  end_date : Option String
  note : String
deriving DecidableEq

/-- Row of the `budgets` table (src/main.py:115-121); `category` is UNIQUE. -/
structure Budget where
  id : Nat
  category : String
  monthly_limit : ℚ
deriving DecidableEq

/-- One tenant's SQLite database (`data/<user_id>/expenses.db`): the four
tables in insertion order plus the AUTOINCREMENT counters (SQLite assigns
`max`-monotone, never-reused rowids; `next*Id` models the next rowid). -/
structure Tenant where
  expenses : List Expense
  savings : List Saving
  goals : List SavingGoal
  budgets : List Budget
  nextExpenseId : Nat := 1
  nextSavingId : Nat := 1
  nextGoalId : Nat := 1
  nextBudgetId : Nat := 1
deriving DecidableEq

/-- Freshly provisioned tenant database (`init_db`, src/main.py:71-123). -/
def emptyTenant : Tenant := ⟨[], [], [], [], 1, 1, 1, 1⟩

/-- Result dict of `add_expense` (status `ok`). -/
structure AddExpenseResult where
  id : Nat
  category : String
  subcategory : String
deriving DecidableEq

/-- Embedding of the `add_expense` tool (src/main.py:223-255): reject
non-positive amounts, normalize the category pair, insert the row.  Note the
date string is inserted without any validation. -/
def add_expense (vocab : Vocab) (t : Tenant) (date : String) (amount : ℚ)
    (category : String) (subcategory : String) (note : String) :
    Except String (AddExpenseResult × Tenant) :=
  if amount ≤ 0 then .error "amount must be positive"
  else
    match validate_category vocab category (some subcategory) with
    | .error e => .error e
    | .ok (nc, ns) =>
      .ok (⟨t.nextExpenseId, nc, ns⟩,
        { t with
          expenses := t.expenses ++ [⟨t.nextExpenseId, date, amount, nc, ns, note⟩],
          nextExpenseId := t.nextExpenseId + 1 })

/-- Embedding of the `list_expenses` tool (src/main.py:257-268):
`SELECT ... ORDER BY date DESC`. -/
def list_expenses (t : Tenant) : List Expense :=
  t.expenses.mergeSort (fun a b => strLe b.date a.date)

/-- Embedding of the `add_saving` tool (src/main.py:412-437). -/
def add_saving (sources : List String) (t : Tenant) (date : String) (amount : ℚ)
    (source : String) (note : String) : Except String (Nat × Tenant) :=
  if amount ≤ 0 then .error "amount must be positive"
  else
    match validate_saving_source sources source with
    | .error e => .error e
    | .ok ns =>
      .ok (t.nextSavingId,
        { t with
          savings := t.savings ++ [⟨t.nextSavingId, date, amount, ns, note⟩],
          nextSavingId := t.nextSavingId + 1 })

/-- Status-discriminated result of the partial-update tools. -/
inductive UpdateResult where
  | ok (id : Nat)
  | not_found (id : Nat)
  | no_changes (id : Nat)
deriving DecidableEq

/-- Apply the collected `UPDATE expenses SET ...` assignments to one row:
`catsub` is the pair set when a category was supplied, `subOnly` the
subcategory set when only a subcategory was supplied. -/
def applyExpenseUpdates (e : Expense) (date : Option String) (amount : Option ℚ)
    (catsub : Option (String × String)) (subOnly : Option String)
    (note : Option String) : Expense :=
  { e with
    date := date.getD e.date
    amount := amount.getD e.amount
    category := (catsub.map Prod.fst).getD e.category
    subcategory := (catsub.map Prod.snd).getD (subOnly.getD e.subcategory)
    note := note.getD e.note }

/-- Final phase of `update_expense`: empty update list → `no_changes`,
no row with the id → `not_found`, else apply the SQL UPDATE. -/
def finishExpenseUpdate (t : Tenant) (expense_id : Nat) (date : Option String)
    (amount : Option ℚ) (catsub : Option (String × String)) (subOnly : Option String)
    (note : Option String) : UpdateResult × Tenant :=
  if date.isNone ∧ amount.isNone ∧ catsub.isNone ∧ subOnly.isNone ∧ note.isNone then
    (.no_changes expense_id, t)
  else if t.expenses.any (fun e => e.id == expense_id) then
    (.ok expense_id,
      { t with expenses := t.expenses.map (fun e =>
          if e.id = expense_id then applyExpenseUpdates e date amount catsub subOnly note
          else e) })
  else (.not_found expense_id, t)

/-- Embedding of the `update_expense` tool (src/main.py:326-390).  When a
category is supplied, `validate_category(category, subcategory)` is called
with the caller's `subcategory` argument (which may be `none`) and BOTH the
category and the resulting subcategory are written — in both branches of the
source's `if subcategory is None` (the two branches are identical).  When
only a subcategory is supplied, the row's current category is fetched and
the pair is re-normalized. -/
def update_expense (vocab : Vocab) (t : Tenant) (expense_id : Nat)
    (date : Option String) (amount : Option ℚ) (category : Option String)
    (subcategory : Option String) (note : Option String) :
    Except String (UpdateResult × Tenant) :=
  if amount.any (fun a => a ≤ 0) then .error "amount must be positive"
  else
    match category with
    | some c =>
      match validate_category vocab c subcategory with
      | .error e => .error e
      | .ok (nc, ns) =>
        .ok (finishExpenseUpdate t expense_id date amount (some (nc, ns)) none note)
    | none =>
      match subcategory with
      | some _ =>
        match t.expenses.find? (fun e => e.id == expense_id) with
        | none => .ok (.not_found expense_id, t)
        | some row =>
          match validate_category vocab row.category subcategory with
          | .error e => .error e
          | .ok (_, ns) =>
            .ok (finishExpenseUpdate t expense_id date amount none (some ns) note)
      | none => .ok (finishExpenseUpdate t expense_id date amount none none note)

/-- Result dict of `set_budget` (status `ok`). -/
structure SetBudgetResult where
  category : String
  monthly_limit : ℚ
deriving DecidableEq

/-- The `ON CONFLICT(category) DO UPDATE SET monthly_limit =
excluded.monthly_limit` row update: replace the limit on the conflicting
category, leave other rows alone. -/
def upsertRow (nc : String) (L : ℚ) (b : Budget) : Budget :=
  if b.category = nc then { b with monthly_limit := L } else b

/-- Embedding of the `set_budget` tool (src/main.py:707-734): reject a
non-positive limit, normalize the category through `validate_category`, then
`INSERT ... ON CONFLICT(category) DO UPDATE SET monthly_limit` — replace the
limit of an existing row for the category, else append a fresh row. -/
def set_budget (vocab : Vocab) (t : Tenant) (category : String) (monthly_limit : ℚ) :
    Except String (SetBudgetResult × Tenant) :=
  if monthly_limit ≤ 0 then .error "monthly_limit must be positive"
  else
    match validate_category vocab category none with
    | .error e => .error e
    | .ok (nc, _) =>
      if t.budgets.any (fun b => b.category == nc) then
        .ok (⟨nc, monthly_limit⟩,
          { t with budgets := t.budgets.map (upsertRow nc monthly_limit) })
      else
        .ok (⟨nc, monthly_limit⟩,
          { t with budgets := t.budgets ++ [⟨t.nextBudgetId, nc, monthly_limit⟩],
                   nextBudgetId := t.nextBudgetId + 1 })

/-- One step of a sequence of `set_budget` calls over the spec-modelled
vocabulary; an erroring call rolls back, leaving the tenant unchanged. -/
def stepBudget (t : Tenant) (cl : String × ℚ) : Tenant :=
  match set_budget specVocab t cl.1 cl.2 with
  | .ok (_, t') => t'
  | .error _ => t

/-- Month start `f"{year}-{month:02d}-01"` built by `check_budget_status`. -/
def monthStartStr (year month : Nat) : String :=
  toString year ++ "-" ++ (if month < 10 then "0" ++ toString month else toString month) ++ "-01"

/-- Exclusive month end built by `check_budget_status`: `f"{year+1}-01-01"`
for December, else `f"{year}-{month+1:02d}-01"`. -/
def monthEndStr (year month : Nat) : String :=
  if month = 12 then toString (year + 1) ++ "-01-01"
  else toString year ++ "-" ++
    (if month + 1 < 10 then "0" ++ toString (month + 1) else toString (month + 1)) ++ "-01"

/-- Payload of a successful `check_budget_status` result dict. -/
structure BudgetStatusOk where
  category : String
  year : Nat
  month : Nat
  monthly_limit : ℚ
  total_expenses : ℚ
  remaining_budget : ℚ
  budget_status : String
  usage_percentage : ℚ
deriving DecidableEq

/-- Status-discriminated result of `check_budget_status`. -/
inductive BudgetStatusResult where
  | no_budget
  | ok (r : BudgetStatusOk)
deriving DecidableEq

/-- Embedding of the `check_budget_status` tool (src/main.py:753-803): look up
the budget row by the merely LOWERCASED raw category (no strip, no vocabulary
normalization), sum expenses with that category and
`date >= start AND date < end` (SQLite TEXT comparison), classify
`over_budget` on strict excess, and report
`round((total / limit) * 100, 2)` as the usage percentage. -/
def check_budget_status (t : Tenant) (category : String) (year month : Nat) :
    BudgetStatusResult :=
  let start_date := monthStartStr year month
  let end_date := monthEndStr year month
  match t.budgets.find? (fun b => b.category == pyLower category) with
  | none => .no_budget
  | some b =>
    let total := ((t.expenses.filter (fun e =>
        e.category == pyLower category && strLe start_date e.date
          && strLt e.date end_date)).map (·.amount)).sum
    .ok ⟨pyLower category, year, month, b.monthly_limit, total,
         b.monthly_limit - total,
         (if total > b.monthly_limit then "over_budget" else "under_budget"),
         round2 (total / b.monthly_limit * 100)⟩

/-- Status-discriminated result of the delete tools. -/
inductive DeleteResult where
  | ok (deleted_rows : Nat)
  | not_found
deriving DecidableEq

/-- Embedding of the `delete_budget` tool (src/main.py:839-855): delete by the
merely lowercased raw category; `not_found` when no row matched. -/
def delete_budget (t : Tenant) (category : String) : DeleteResult × Tenant :=
  let keep := t.budgets.filter (fun b => !(b.category == pyLower category))
  let deleted := t.budgets.length - keep.length
  if deleted = 0 then (.not_found, t)
  else (.ok deleted, { t with budgets := keep })

/-- Payload of a successful `get_saving_goal_insights` result dict.
`required_monthly_saving` and `current_monthly_average` carry the
`round(_, 2)` the source applies when building the dict. -/
structure InsightsOk where
  goal : String
  target_amount : ℚ
  total_saved : ℚ
  months_total : Int
  months_elapsed : Int
  months_remaining : Int
  required_monthly_saving : ℚ
  current_monthly_average : ℚ
  pace_status : String
deriving DecidableEq

/-- Status-discriminated result of `get_saving_goal_insights`. -/
inductive InsightsResult where
  | not_found
  | no_deadline
  | ok (r : InsightsOk)
deriving DecidableEq

/-- Embedding of the `get_saving_goal_insights` tool (src/main.py:571-633).
`today` (the source reads `datetime.today()`) is passed explicitly.  Sums ALL
of the tenant's savings in `[start_date, today]`, computes the month counts
via `months_between`, the required/actual monthly pace, and classifies
`missed_goal` / `on_track` / `behind` on the UNROUNDED values. -/
def get_saving_goal_insights (t : Tenant) (today : String) (goal_id : Nat) :
    Except String InsightsResult :=
  match t.goals.find? (fun g => g.id == goal_id) with
  | none => .ok .not_found
  | some g =>
    match g.end_date with
    | none => .ok .no_deadline
    | some ed =>
      let total_saved := ((t.savings.filter (fun s =>
          strLe g.start_date s.date && strLe s.date today)).map (·.amount)).sum
      match months_between g.start_date ed, months_between g.start_date today with
      | .error e, _ => .error e
      | .ok _, .error e => .error e
      | .ok mte, .ok mtt =>
        let months_total := max mte 1
        let months_elapsed := max mtt 0
        let months_remaining := max (months_total - months_elapsed) 0
        let remaining_amount := max (g.target_amount - total_saved) 0
        let required_monthly : ℚ :=
          if months_remaining > 0 then remaining_amount / (months_remaining : ℚ) else 0
        let current_monthly_avg : ℚ :=
          if months_elapsed > 0 then total_saved / (months_elapsed : ℚ) else total_saved
        let pace :=
          if months_remaining = 0 ∧ remaining_amount > 0 then "missed_goal"
          else if current_monthly_avg ≥ required_monthly then "on_track"
          else "behind"
        .ok (.ok ⟨g.name, g.target_amount, total_saved, months_total, months_elapsed,
                  months_remaining, round2 required_monthly, round2 current_monthly_avg,
                  pace⟩)

/-- Initial value of the module-level `CURRENT_USER_ID` global
(src/main.py:29). -/
def CURRENT_USER_ID : String := "default_user"

/-- Process state: the `CURRENT_USER_ID` global plus the per-user databases
under `data/<user_id>/` (an association list keyed by user id). -/
structure Store where
  current_user : String
  tenants : List (String × Tenant)
deriving DecidableEq

/-- Process state at module load: no user databases yet, current user
`"default_user"`. -/
def initialStore : Store := ⟨CURRENT_USER_ID, []⟩

/-- Embedding of `resolve_user_id` (src/main.py:60-64): Python `if not
user_id` treats both `None` and the empty string as absent and substitutes
the current-user global. -/
def resolve_user_id (current : String) (user_id : Option String) : String :=
  match user_id with
  | none => current
  | some s => if s = "" then current else s

/-- The tenant database for a user; `init_db` provisions an empty one on
first use (`CREATE TABLE IF NOT EXISTS`). -/
def getTenant (st : Store) (uid : String) : Tenant :=
  (st.tenants.lookup uid).getD emptyTenant

/-- Write a user's tenant database back into the process state (creating the
`data/<uid>/expenses.db` entry if absent, as `init_db` does). -/
def putTenant (st : Store) (uid : String) (t : Tenant) : Store :=
  if (st.tenants.lookup uid).isSome then
    { st with tenants := st.tenants.map (fun p => if p.1 = uid then (uid, t) else p) }
  else
    { st with tenants := st.tenants ++ [(uid, t)] }

/-- Store-level `add_expense`: the tool resolves the tenant via
`resolve_user_id`, provisions it, and runs the insert on that database. -/
def storeAddExpense (st : Store) (date : String) (amount : ℚ)
    (category subcategory note : String) (user_id : Option String) :
    Except String (AddExpenseResult × Store) :=
  let uid := resolve_user_id st.current_user user_id
  match add_expense specVocab (getTenant st uid) date amount category subcategory note with
  | .error e => .error e
  | .ok (r, t') => .ok (r, putTenant st uid t')

/-- Store-level `add_saving`. -/
def storeAddSaving (st : Store) (date : String) (amount : ℚ)
    (source note : String) (user_id : Option String) :
    Except String (Nat × Store) :=
  let uid := resolve_user_id st.current_user user_id
  match add_saving specSources (getTenant st uid) date amount source note with
  | .error e => .error e
  | .ok (r, t') => .ok (r, putTenant st uid t')

/-- Store-level `list_expenses` (read-only, but `init_db` still provisions
the tenant database). -/
def storeListExpenses (st : Store) (user_id : Option String) :
    List Expense × Store :=
  let uid := resolve_user_id st.current_user user_id
  let t := getTenant st uid
  (list_expenses t, putTenant st uid t)

/-- Store-level `update_expense`. -/
def storeUpdateExpense (st : Store) (expense_id : Nat) (date : Option String)
    (amount : Option ℚ) (category : Option String) (subcategory : Option String)
    (note : Option String) (user_id : Option String) :
    Except String (UpdateResult × Store) :=
  let uid := resolve_user_id st.current_user user_id
  match update_expense specVocab (getTenant st uid) expense_id date amount category
      subcategory note with
  | .error e => .error e
  | .ok (r, t') => .ok (r, putTenant st uid t')

/-- Store-level `set_budget`. -/
def storeSetBudget (st : Store) (category : String) (monthly_limit : ℚ)
    (user_id : Option String) : Except String (SetBudgetResult × Store) :=
  let uid := resolve_user_id st.current_user user_id
  match set_budget specVocab (getTenant st uid) category monthly_limit with
  | .error e => .error e
  | .ok (r, t') => .ok (r, putTenant st uid t')

/-- Store-level `check_budget_status` (read-only, tenant provisioned). -/
def storeCheckBudgetStatus (st : Store) (category : String) (year month : Nat)
    (user_id : Option String) : BudgetStatusResult × Store :=
  let uid := resolve_user_id st.current_user user_id
  let t := getTenant st uid
  (check_budget_status t category year month, putTenant st uid t)

/-- Store-level `delete_budget`. -/
def storeDeleteBudget (st : Store) (category : String) (user_id : Option String) :
    DeleteResult × Store :=
  let uid := resolve_user_id st.current_user user_id
  let (r, t') := delete_budget (getTenant st uid) category
  (r, putTenant st uid t')

/-- Embedding of the `set_current_user` tool (src/main.py:922-932): mutate the
`CURRENT_USER_ID` global, then `init_db(user_id)`; returns the new current
user. -/
def set_current_user (st : Store) (user_id : String) : String × Store :=
  let st' := { st with current_user := user_id }
  (user_id, putTenant st' user_id (getTenant st' user_id))

/-- Concrete tenant for the spec's §8 budget-status scenario: a `food` budget
of 500 and expenses totaling 530 inside 2024-03. -/
def budgetScenarioTenant : Tenant :=
  ⟨[⟨1, "2024-03-05", 500, "food", "other", ""⟩,
    ⟨2, "2024-03-20", 30, "food", "other", ""⟩],
   [], [], [⟨1, "food", 500⟩], 3, 1, 1, 2⟩

/-- Concrete tenant for the spec's §8 goal-pacing scenario: target 1200 from
2024-01-01 to 2024-12-31, with savings of 100 on 2024-01-15 and 2024-02-15. -/
def goalScenarioTenant : Tenant :=
  ⟨[],
   [⟨1, "2024-01-15", 100, "salary", ""⟩, ⟨2, "2024-02-15", 100, "salary", ""⟩],
   [⟨1, "vacation", 1200, "2024-01-01", some "2024-12-31", ""⟩],
   [], 1, 3, 2, 1⟩

/-! ## Helper lemmas -/

/-- A successful vocabulary lookup produces a binding of the list. -/
theorem lookupV_mem {v : Vocab} {k : String} {l : List String}
    (h : lookupV v k = some l) : (k, l) ∈ v := by
  unfold lookupV at h
  obtain ⟨p, hf, h2⟩ := Option.map_eq_some'.mp h
  have hp : p.1 = k := by simpa using List.find?_some hf
  have hm : p ∈ v := List.mem_of_find?_eq_some hf
  cases p with
  | mk a b =>
    simp only at hp h2
    subst hp
    subst h2
    exact hm

/-- Over a nonempty subcategory list, `pickSub` always succeeds and picks a
member. -/
theorem pickSub_mem {avail : List String} (h : avail ≠ []) (ns : String) :
    ∃ s, pickSub avail ns = .ok s ∧ s ∈ avail := by
  unfold pickSub
  match avail, h with
  | a :: as, _ =>
    split_ifs with h1 h2 h3 h4
    · exact ⟨"other", rfl, h2⟩
    · exact ⟨a, rfl, List.mem_cons_self a as⟩
    · exact ⟨ns, rfl, h3⟩
    · exact ⟨"other", rfl, h4⟩
    · exact ⟨a, rfl, List.mem_cons_self a as⟩

/-- Normalization totality: over a well-formed vocabulary,
`validate_category` always succeeds and returns a pair valid in it. -/
theorem validate_category_ok (v : Vocab) (hwf : WFVocab v) (category : String)
    (subcategory : Option String) :
    ∃ nc ns l, validate_category v category subcategory = .ok (nc, ns) ∧
      lookupV v nc = some l ∧ ns ∈ l := by
  unfold validate_category
  rcases hl0 : lookupV v (pyLower (pyStrip category)) with _ | l
  · obtain ⟨lm, hlm⟩ := Option.isSome_iff_exists.mp hwf.1
    have hlne : lm ≠ [] := hwf.2 _ (lookupV_mem hlm)
    obtain ⟨s, hs, hmem⟩ := pickSub_mem hlne (pyLower (pyStrip (subcategory.getD "")))
    refine ⟨"misc", s, lm, ?_, hlm, hmem⟩
    simp only [hl0, Option.isSome_none, Bool.false_eq_true, if_false, hlm, hs, Except.map]
  · have hlne : l ≠ [] := hwf.2 _ (lookupV_mem hl0)
    obtain ⟨s, hs, hmem⟩ := pickSub_mem hlne (pyLower (pyStrip (subcategory.getD "")))
    refine ⟨_, s, l, ?_, hl0, hmem⟩
    simp only [hl0, Option.isSome_some, if_true, hs, Except.map]

/-! ## C1 -/

/-- C1: for every raw (category, subcategory) string pair — empty strings
and garbage included — `validate_category` returns, without raising, a pair
whose category is a key of the loaded categories mapping and whose
subcategory is a member of that key's subcategory list, assuming the loaded
vocabulary is well-formed (which the spec guarantees of the configuration and
which holds of the spec-modelled vocabulary). -/
theorem validate_category_total (v : Vocab) (hwf : WFVocab v)
    (category subcategory : String) :
    ∃ nc ns l, validate_category v category (some subcategory) = .ok (nc, ns) ∧
      lookupV v nc = some l ∧ ns ∈ l :=
  validate_category_ok v hwf category (some subcategory)

/-- Witness for C1: the spec-modelled vocabulary is well-formed and a
garbage input pair normalizes to a valid pair. -/
theorem validate_category_total_witness :
    WFVocab specVocab ∧
    (∃ nc ns l, validate_category specVocab " Fo od!" (some "GARBAGE") = .ok (nc, ns) ∧
      lookupV specVocab nc = some l ∧ ns ∈ l) :=
  ⟨by decide, validate_category_total specVocab (by decide) " Fo od!" "GARBAGE"⟩

/-! ## C4 -/

/-- C4: for every amount ≤ 0, `add_expense` and `add_saving` raise the
ValidationError (`ValueError("amount must be positive")`) before any write is
attempted — modelled by the `.error` result, which carries no successor
state, so the tenant's expenses and savings tables are unchanged; the
store-level wrappers likewise produce no successor store.  The check is the
first statement of both tools, before normalization and before `init_db`. -/
theorem add_rejects_nonpositive (vocab : Vocab) (sources : List String)
    (t : Tenant) (st : Store) (date category subcategory source note : String)
    (user_id : Option String) (amount : ℚ) (h : amount ≤ 0) :
    add_expense vocab t date amount category subcategory note =
      .error "amount must be positive" ∧
    add_saving sources t date amount source note =
      .error "amount must be positive" ∧
    storeAddExpense st date amount category subcategory note user_id =
      .error "amount must be positive" ∧
    storeAddSaving st date amount source note user_id =
      .error "amount must be positive" := by
  refine ⟨?_, ?_, ?_, ?_⟩ <;>
    simp [add_expense, add_saving, storeAddExpense, storeAddSaving, h]

/-- Witness for C4 at amount `0`. -/
theorem add_rejects_nonpositive_witness :
    (0 : ℚ) ≤ 0 ∧
    (add_expense specVocab emptyTenant "2024-01-01" 0 "food" "" "" =
        .error "amount must be positive" ∧
      add_saving specSources emptyTenant "2024-01-01" 0 "salary" "" =
        .error "amount must be positive" ∧
      storeAddExpense initialStore "2024-01-01" 0 "food" "" "" none =
        .error "amount must be positive" ∧
      storeAddSaving initialStore "2024-01-01" 0 "salary" "" none =
        .error "amount must be positive") :=
  ⟨le_refl 0, add_rejects_nonpositive specVocab specSources emptyTenant initialStore
    "2024-01-01" "food" "" "salary" "" none 0 (le_refl 0)⟩

/-! ## C5 -/

/-- C5 counterexample: the claim says a malformed date passed to a write
operation is rejected with a ValidationError before any write.  In the code
neither `add_expense` nor `add_saving` inspects the date at all: with dates
that the program's own date parser rejects, both calls succeed and persist
the malformed row. -/
theorem add_malformed_date_counterexample :
    parseDate "not-a-date" = none ∧
    add_expense specVocab emptyTenant "not-a-date" 5 "food" "" "" =
      .ok (⟨1, "food", "other"⟩,
        ⟨[⟨1, "not-a-date", 5, "food", "other", ""⟩], [], [], [], 2, 1, 1, 1⟩) ∧
    parseDate "99/99/9999" = none ∧
    add_saving specSources emptyTenant "99/99/9999" 7 "salary" "" =
      .ok (1, ⟨[], [⟨1, "99/99/9999", 7, "salary", ""⟩], [], [], 1, 2, 1, 1⟩) :=
  ⟨rfl, rfl, rfl, rfl⟩

/-- C5 (amended): the write operations perform NO date-format validation —
for every date string, malformed or not, `add_expense` and `add_saving`
persist the row with that exact date string whenever the amount is positive
(only non-positive amounts are rejected), so rows with malformed dates ARE
persisted. -/
theorem add_ops_ignore_date_format (vocab : Vocab) (sources : List String)
    (t : Tenant) (date category subcategory source note : String) (amount : ℚ)
    (h : 0 < amount) :
    (∀ nc ns, validate_category vocab category (some subcategory) = .ok (nc, ns) →
      add_expense vocab t date amount category subcategory note =
        .ok (⟨t.nextExpenseId, nc, ns⟩,
          { t with
            expenses := t.expenses ++ [⟨t.nextExpenseId, date, amount, nc, ns, note⟩],
            nextExpenseId := t.nextExpenseId + 1 })) ∧
    (∀ ns, validate_saving_source sources source = .ok ns →
      add_saving sources t date amount source note =
        .ok (t.nextSavingId,
          { t with
            savings := t.savings ++ [⟨t.nextSavingId, date, amount, ns, note⟩],
            nextSavingId := t.nextSavingId + 1 })) := by
  constructor
  · intro nc ns hv
    simp [add_expense, hv, not_le.mpr h]
  · intro ns hv
    simp [add_saving, hv, not_le.mpr h]

/-- Witness for C5 (amended) at the malformed — yet persisted — date
`"2024-13-45"` (month 13, day 45: well-shaped but rejected by the
program's own date parser). -/
theorem add_ops_ignore_date_format_witness :
    (0 : ℚ) < 5 ∧ parseDate "2024-13-45" = none ∧
    add_expense specVocab emptyTenant "2024-13-45" 5 "food" "groceries" "n" =
      .ok (⟨1, "food", "groceries"⟩,
        ⟨[⟨1, "2024-13-45", 5, "food", "groceries", "n"⟩], [], [], [], 2, 1, 1, 1⟩) := by
  refine ⟨by norm_num, rfl, ?_⟩
  exact (add_ops_ignore_date_format specVocab specSources emptyTenant "2024-13-45"
    "food" "groceries" "salary" "n" 5 (by norm_num)).1 "food" "groceries" rfl

/-! ## C9 -/

/-- C9: every embedded tool operation resolves its tenant through
`resolve_user_id`: a `None` or empty `user_id` resolves to the process-wide
current-user pointer `CURRENT_USER_ID` (initially `"default_user"`, updated
by `set_current_user`), and any nonempty `user_id` string is used as the
tenant identifier unchanged; consequently every store-level tool behaves
identically under `user_id = none`, `user_id = some ""`, and an explicit
`some st.current_user`. -/
theorem tools_resolve_current_user (st : Store)
    (s current date category subcategory source note : String) (amount : ℚ)
    (expense_id year month : Nat) (d2 : Option String) (a2 : Option ℚ)
    (c2 sub2 n2 : Option String) (hs : s ≠ "") :
    resolve_user_id current none = current ∧
    resolve_user_id current (some "") = current ∧
    resolve_user_id current (some s) = s ∧
    initialStore.current_user = "default_user" ∧
    (set_current_user st s).2.current_user = s ∧
    storeAddExpense st date amount category subcategory note none =
      storeAddExpense st date amount category subcategory note (some st.current_user) ∧
    storeAddExpense st date amount category subcategory note (some "") =
      storeAddExpense st date amount category subcategory note (some st.current_user) ∧
    storeAddSaving st date amount source note none =
      storeAddSaving st date amount source note (some st.current_user) ∧
    storeAddSaving st date amount source note (some "") =
      storeAddSaving st date amount source note (some st.current_user) ∧
    storeSetBudget st category amount none =
      storeSetBudget st category amount (some st.current_user) ∧
    storeSetBudget st category amount (some "") =
      storeSetBudget st category amount (some st.current_user) ∧
    storeCheckBudgetStatus st category year month none =
      storeCheckBudgetStatus st category year month (some st.current_user) ∧
    storeCheckBudgetStatus st category year month (some "") =
      storeCheckBudgetStatus st category year month (some st.current_user) ∧
    storeListExpenses st none = storeListExpenses st (some st.current_user) ∧
    storeListExpenses st (some "") = storeListExpenses st (some st.current_user) ∧
    storeUpdateExpense st expense_id d2 a2 c2 sub2 n2 none =
      storeUpdateExpense st expense_id d2 a2 c2 sub2 n2 (some st.current_user) ∧
    storeUpdateExpense st expense_id d2 a2 c2 sub2 n2 (some "") =
      storeUpdateExpense st expense_id d2 a2 c2 sub2 n2 (some st.current_user) ∧
    storeDeleteBudget st category none =
      storeDeleteBudget st category (some st.current_user) ∧
    storeDeleteBudget st category (some "") =
      storeDeleteBudget st category (some st.current_user) := by
  refine ⟨rfl, rfl, by simp [resolve_user_id, hs], rfl, ?_, ?_, ?_, ?_, ?_, ?_, ?_,
    ?_, ?_, ?_, ?_, ?_, ?_, ?_, ?_⟩
  · simp only [set_current_user, putTenant]
    split <;> rfl
  all_goals
    simp [storeAddExpense, storeAddSaving, storeSetBudget, storeCheckBudgetStatus,
      storeListExpenses, storeUpdateExpense, storeDeleteBudget, resolve_user_id]

/-- Witness for C9 at concrete arguments (`s = "alice"`). -/
theorem tools_resolve_current_user_witness :
    ("alice" : String) ≠ "" ∧
    (resolve_user_id "bob" none = "bob" ∧
      resolve_user_id "bob" (some "") = "bob" ∧
      resolve_user_id "bob" (some "alice") = "alice" ∧
      initialStore.current_user = "default_user" ∧
      (set_current_user initialStore "alice").2.current_user = "alice" ∧
      storeAddExpense initialStore "2024-01-01" 5 "food" "" "" none =
        storeAddExpense initialStore "2024-01-01" 5 "food" "" ""
          (some initialStore.current_user) ∧
      storeAddExpense initialStore "2024-01-01" 5 "food" "" "" (some "") =
        storeAddExpense initialStore "2024-01-01" 5 "food" "" ""
          (some initialStore.current_user) ∧
      storeAddSaving initialStore "2024-01-01" 5 "salary" "" none =
        storeAddSaving initialStore "2024-01-01" 5 "salary" ""
          (some initialStore.current_user) ∧
      storeAddSaving initialStore "2024-01-01" 5 "salary" "" (some "") =
        storeAddSaving initialStore "2024-01-01" 5 "salary" ""
          (some initialStore.current_user) ∧
      storeSetBudget initialStore "food" 5 none =
        storeSetBudget initialStore "food" 5 (some initialStore.current_user) ∧
      storeSetBudget initialStore "food" 5 (some "") =
        storeSetBudget initialStore "food" 5 (some initialStore.current_user) ∧
      storeCheckBudgetStatus initialStore "food" 2024 3 none =
        storeCheckBudgetStatus initialStore "food" 2024 3
          (some initialStore.current_user) ∧
      storeCheckBudgetStatus initialStore "food" 2024 3 (some "") =
        storeCheckBudgetStatus initialStore "food" 2024 3
          (some initialStore.current_user) ∧
      storeListExpenses initialStore none =
        storeListExpenses initialStore (some initialStore.current_user) ∧
      storeListExpenses initialStore (some "") =
        storeListExpenses initialStore (some initialStore.current_user) ∧
      storeUpdateExpense initialStore 1 none none none none none none =
        storeUpdateExpense initialStore 1 none none none none none
          (some initialStore.current_user) ∧
      storeUpdateExpense initialStore 1 none none none none none (some "") =
        storeUpdateExpense initialStore 1 none none none none none
          (some initialStore.current_user) ∧
      storeDeleteBudget initialStore "food" none =
        storeDeleteBudget initialStore "food" (some initialStore.current_user) ∧
      storeDeleteBudget initialStore "food" (some "") =
        storeDeleteBudget initialStore "food" (some initialStore.current_user)) :=
  ⟨by decide, tools_resolve_current_user initialStore "alice" "bob" "2024-01-01"
    "food" "" "salary" "" 5 1 2024 3 none none none none none (by decide)⟩

/-! ## C2 -/

/-- C2 counterexample: the claim says `usage_percentage` EQUALS
`100 × spent / limit`, but the source rounds it to two decimal places
(`round((total / limit) * 100, 2)`).  With limit 3 and one expense of 1 in
2024-03, the code reports `33.33`, which differs from `100 × 1 / 3`. -/
theorem check_budget_status_usage_counterexample :
    check_budget_status
        ⟨[⟨1, "2024-03-10", 1, "food", "other", ""⟩], [], [], [⟨1, "food", 3⟩], 2, 1, 1, 2⟩
        "food" 2024 3 =
      .ok ⟨"food", 2024, 3, 3, 1, 2, "under_budget", 3333 / 100⟩ ∧
    (3333 / 100 : ℚ) ≠ 100 * 1 / 3 := by
  constructor
  · have hpl : pyLower "food" = "food" := by decide
    have hfind : ([⟨1, "food", 3⟩] : List Budget).find?
        (fun b => b.category == "food") = some ⟨1, "food", 3⟩ := by decide
    have hfil : ([⟨1, "2024-03-10", 1, "food", "other", ""⟩] : List Expense).filter
        (fun e => e.category == "food" && strLe (monthStartStr 2024 3) e.date
          && strLt e.date (monthEndStr 2024 3)) =
        [⟨1, "2024-03-10", 1, "food", "other", ""⟩] := by decide
    simp only [check_budget_status, hpl, hfind, hfil, List.map_cons, List.map_nil,
      List.sum_cons, List.sum_nil]
    norm_num [round2, roundHalfEven, Int.fract]
  · norm_num

/-- C2 (amended): `check_budget_status(category, year, month)` with an
existing budget row for the lowercased category sums exactly the expenses
with that category and date in the half-open range
`[YYYY-MM-01, first-of-next-month)` (December rolls the year forward),
classifies `over_budget` iff the sum strictly exceeds the monthly limit
(else `under_budget`), reports `remaining = limit - spent`, and reports
`usage_percentage` as `100 × spent / limit` ROUNDED TO TWO DECIMAL PLACES;
with no budget row the result is the status `no_budget`, a normal return
value, not a raised error. -/
theorem check_budget_status_spec (t : Tenant) (category : String) (year month : Nat) :
    (t.budgets.find? (fun b => b.category == pyLower category) = none →
      check_budget_status t category year month = .no_budget) ∧
    (∀ b, t.budgets.find? (fun b => b.category == pyLower category) = some b →
      ∃ r, check_budget_status t category year month = .ok r ∧
        r.category = pyLower category ∧ r.year = year ∧ r.month = month ∧
        r.total_expenses = ((t.expenses.filter (fun e =>
            e.category == pyLower category && strLe (monthStartStr year month) e.date
              && strLt e.date (monthEndStr year month))).map (·.amount)).sum ∧
        r.monthly_limit = b.monthly_limit ∧
        (r.budget_status = "over_budget" ↔ b.monthly_limit < r.total_expenses) ∧
        (r.budget_status = "under_budget" ↔ r.total_expenses ≤ b.monthly_limit) ∧
        r.remaining_budget = b.monthly_limit - r.total_expenses ∧
        r.usage_percentage = round2 (100 * r.total_expenses / b.monthly_limit)) := by
  constructor
  · intro h
    simp only [check_budget_status, h]
  · intro b hb
    simp only [check_budget_status, hb]
    refine ⟨_, rfl, rfl, rfl, rfl, rfl, rfl, ?_, ?_, rfl, ?_⟩
    · split_ifs with h <;> simp [h]
    · split_ifs with h
      · simp [not_le.mpr h]
      · simp [not_lt.mp h]
    · have h : ∀ x y : ℚ, x / y * 100 = 100 * x / y := fun x y => by ring
      rw [h]

/-- Witness for C2 at the spec's §8 scenario (limit 500, spent 530 in
2024-03): status `over_budget`, remaining −30, usage 106.00. -/
theorem check_budget_status_spec_witness :
    (budgetScenarioTenant.budgets.find? (fun b => b.category == pyLower "food") =
      some ⟨1, "food", 500⟩) ∧
    (∃ r, check_budget_status budgetScenarioTenant "food" 2024 3 = .ok r) ∧
    check_budget_status budgetScenarioTenant "food" 2024 3 =
      .ok ⟨"food", 2024, 3, 500, 530, -30, "over_budget", 106⟩ := by
  refine ⟨by decide, ?_, ?_⟩
  · obtain ⟨r, hr, -⟩ := (check_budget_status_spec budgetScenarioTenant "food" 2024 3).2
      ⟨1, "food", 500⟩ (by decide)
    exact ⟨r, hr⟩
  · have hpl : pyLower "food" = "food" := by decide
    have hfind : ([⟨1, "food", 500⟩] : List Budget).find?
        (fun b => b.category == "food") = some ⟨1, "food", 500⟩ := by decide
    have hfil : ([⟨1, "2024-03-05", 500, "food", "other", ""⟩,
        ⟨2, "2024-03-20", 30, "food", "other", ""⟩] : List Expense).filter
        (fun e => e.category == "food" && strLe (monthStartStr 2024 3) e.date
          && strLt e.date (monthEndStr 2024 3)) =
        [⟨1, "2024-03-05", 500, "food", "other", ""⟩,
         ⟨2, "2024-03-20", 30, "food", "other", ""⟩] := by decide
    simp only [check_budget_status, budgetScenarioTenant, hpl, hfind, hfil,
      List.map_cons, List.map_nil, List.sum_cons, List.sum_nil]
    norm_num [round2, roundHalfEven, Int.fract]

/-! ## C3 -/

/-- C3: for every saving goal with an end date, `get_saving_goal_insights`
computes `months_total = max(monthsBetween(start, end), 1)` with
`monthsBetween = (endYear−startYear)×12 + (endMonth−startMonth)` (ignoring
day-of-month), `months_elapsed = max(monthsBetween(start, today), 0)`,
`months_remaining = max(months_total − months_elapsed, 0)`, `saved` = sum of
the tenant's savings dated in `[start, today]`, `required_monthly =
remaining/months_remaining` when positive else 0, `current_monthly_avg =
saved/months_elapsed` when positive else `saved`, and classifies, in order,
`missed_goal` / `on_track` / `behind` on the unrounded values (the returned
monthly figures carry the source's `round(_, 2)`). -/
theorem get_saving_goal_insights_spec (t : Tenant) (today : String) (goal_id : Nat)
    (g : SavingGoal) (ed : String) (ps pe pt : PyDate)
    (hg : t.goals.find? (fun g => g.id == goal_id) = some g)
    (hed : g.end_date = some ed)
    (hps : parseDate g.start_date = some ps)
    (hpe : parseDate ed = some pe)
    (hpt : parseDate today = some pt) :
    ∃ r, get_saving_goal_insights t today goal_id = .ok (.ok r) ∧
      (let saved := ((t.savings.filter (fun s =>
          strLe g.start_date s.date && strLe s.date today)).map (·.amount)).sum
       let mTot := max (((pe.year : Int) - (ps.year : Int)) * 12 +
          ((pe.month : Int) - (ps.month : Int))) 1
       let mEl := max (((pt.year : Int) - (ps.year : Int)) * 12 +
          ((pt.month : Int) - (ps.month : Int))) 0
       let mRem := max (mTot - mEl) 0
       let remA := max (g.target_amount - saved) 0
       let req : ℚ := if mRem > 0 then remA / (mRem : ℚ) else 0
       let avg : ℚ := if mEl > 0 then saved / (mEl : ℚ) else saved
       r.goal = g.name ∧ r.target_amount = g.target_amount ∧ r.total_saved = saved ∧
       r.months_total = mTot ∧ r.months_elapsed = mEl ∧ r.months_remaining = mRem ∧
       r.required_monthly_saving = round2 req ∧
       r.current_monthly_average = round2 avg ∧
       r.pace_status = (if mRem = 0 ∧ remA > 0 then "missed_goal"
         else if avg ≥ req then "on_track" else "behind")) := by
  simp only [get_saving_goal_insights, months_between, hg, hed, hps, hpe, hpt]
  exact ⟨_, rfl, rfl, rfl, rfl, rfl, rfl, rfl, rfl, rfl, rfl⟩

/-- Witness for C3 at the spec's §8 scenario: target 1200, 2024-01-01 to
2024-12-31, savings 100+100, today 2024-03-01 → months_total 11,
months_elapsed 2, months_remaining 9, saved 200, required 111.11, average
100.00, pace `behind`. -/
theorem get_saving_goal_insights_spec_witness :
    (goalScenarioTenant.goals.find? (fun g => g.id == 1) =
      some ⟨1, "vacation", 1200, "2024-01-01", some "2024-12-31", ""⟩) ∧
    parseDate "2024-01-01" = some ⟨2024, 1, 1⟩ ∧
    parseDate "2024-12-31" = some ⟨2024, 12, 31⟩ ∧
    parseDate "2024-03-01" = some ⟨2024, 3, 1⟩ ∧
    (∃ r, get_saving_goal_insights goalScenarioTenant "2024-03-01" 1 = .ok (.ok r)) ∧
    get_saving_goal_insights goalScenarioTenant "2024-03-01" 1 =
      .ok (.ok ⟨"vacation", 1200, 200, 11, 2, 9, 11111 / 100, 100, "behind"⟩) := by
  refine ⟨by decide, by decide, by decide, by decide, ?_, ?_⟩
  · obtain ⟨r, hr, -⟩ := get_saving_goal_insights_spec goalScenarioTenant "2024-03-01" 1
      ⟨1, "vacation", 1200, "2024-01-01", some "2024-12-31", ""⟩ "2024-12-31"
      ⟨2024, 1, 1⟩ ⟨2024, 12, 31⟩ ⟨2024, 3, 1⟩ (by decide) rfl (by decide) (by decide)
      (by decide)
    exact ⟨r, hr⟩
  · have hfind : ([⟨1, "vacation", 1200, "2024-01-01", some "2024-12-31", ""⟩] :
        List SavingGoal).find? (fun g => g.id == 1) =
        some ⟨1, "vacation", 1200, "2024-01-01", some "2024-12-31", ""⟩ := by decide
    have hfil : ([⟨1, "2024-01-15", 100, "salary", ""⟩,
        ⟨2, "2024-02-15", 100, "salary", ""⟩] : List Saving).filter (fun s =>
        strLe "2024-01-01" s.date && strLe s.date "2024-03-01") =
        [⟨1, "2024-01-15", 100, "salary", ""⟩, ⟨2, "2024-02-15", 100, "salary", ""⟩] := by
      decide
    have hp1 : parseDate "2024-01-01" = some ⟨2024, 1, 1⟩ := by decide
    have hp2 : parseDate "2024-12-31" = some ⟨2024, 12, 31⟩ := by decide
    have hp3 : parseDate "2024-03-01" = some ⟨2024, 3, 1⟩ := by decide
    simp only [get_saving_goal_insights, months_between, goalScenarioTenant, hfind,
      hfil, hp1, hp2, hp3, List.map_cons, List.map_nil, List.sum_cons, List.sum_nil]
    norm_num [round2, roundHalfEven, Int.fract, max_def]

/-! ## C6 -/

/-- Success shape of `set_budget`: with a positive limit and a normalized
category, the tool upserts — replace on an existing category, else append. -/
theorem set_budget_ok {t : Tenant} {c : String} {L : ℚ} {nc ns : String}
    (hL : 0 < L) (hv : validate_category specVocab c none = .ok (nc, ns)) :
    set_budget specVocab t c L = .ok (⟨nc, L⟩,
      if t.budgets.any (fun b => b.category == nc) then
        { t with budgets := t.budgets.map (upsertRow nc L) }
      else
        { t with budgets := t.budgets ++ [⟨t.nextBudgetId, nc, L⟩],
                 nextBudgetId := t.nextBudgetId + 1 }) := by
  unfold set_budget
  rw [if_neg (not_le.mpr hL)]
  simp only [hv]
  split <;> rfl

/-- Success shape of `set_budget` when a row for the normalized category
exists: replace its limit in place. -/
theorem set_budget_ok_pos {t : Tenant} {c : String} {L : ℚ} {nc ns : String}
    (hL : 0 < L) (hv : validate_category specVocab c none = .ok (nc, ns))
    (hany : t.budgets.any (fun b => b.category == nc) = true) :
    set_budget specVocab t c L =
      .ok (⟨nc, L⟩, { t with budgets := t.budgets.map (upsertRow nc L) }) := by
  rw [set_budget_ok hL hv, if_pos hany]

/-- Success shape of `set_budget` when no row for the normalized category
exists: append a fresh row. -/
theorem set_budget_ok_neg {t : Tenant} {c : String} {L : ℚ} {nc ns : String}
    (hL : 0 < L) (hv : validate_category specVocab c none = .ok (nc, ns))
    (hany : ¬ t.budgets.any (fun b => b.category == nc) = true) :
    set_budget specVocab t c L =
      .ok (⟨nc, L⟩,
        { t with budgets := t.budgets ++ [⟨t.nextBudgetId, nc, L⟩],
                 nextBudgetId := t.nextBudgetId + 1 }) := by
  rw [set_budget_ok hL hv, if_neg hany]

/-- The conflict update leaves every row's category unchanged. -/
theorem upsertRow_category (nc : String) (L : ℚ) (b : Budget) :
    (upsertRow nc L b).category = b.category := by
  unfold upsertRow
  split <;> rfl

/-- Whether some row has a given category is unchanged by the conflict
update. -/
theorem any_cat_map_upsertRow (l : List Budget) (nc nc2 : String) (L : ℚ) :
    (l.map (upsertRow nc L)).any (fun b => b.category == nc2) =
      l.any (fun b => b.category == nc2) := by
  induction l with
  | nil => rfl
  | cons x xs ih => simp [upsertRow_category, ih]

/-- The number of rows with a given category is unchanged by the conflict
update. -/
theorem countP_cat_map_upsertRow (l : List Budget) (nc nc2 : String) (L : ℚ) :
    (l.map (upsertRow nc L)).countP (fun b => b.category == nc2) =
      l.countP (fun b => b.category == nc2) := by
  induction l with
  | nil => rfl
  | cons x xs ih => simp [List.countP_cons, upsertRow_category, ih]

/-- Distinctness of budget categories is preserved by the conflict update. -/
theorem pairwise_cat_map_upsertRow {l : List Budget} {nc : String} {L : ℚ}
    (hu : l.Pairwise (fun a b => a.category ≠ b.category)) :
    (l.map (upsertRow nc L)).Pairwise (fun a b => a.category ≠ b.category) := by
  refine List.Pairwise.map _ ?_ hu
  intro a b hab
  rw [upsertRow_category, upsertRow_category]
  exact hab

/-- After the conflict update for `nc` with limit `L`, every row with
category `nc` carries limit `L`. -/
theorem mem_map_upsertRow {l : List Budget} {nc : String} {L : ℚ} {b : Budget}
    (hb : b ∈ l.map (upsertRow nc L)) (hc : b.category = nc) :
    b.monthly_limit = L := by
  obtain ⟨a, ha, rfl⟩ := List.mem_map.mp hb
  by_cases h : a.category = nc
  · simp [upsertRow, h]
  · rw [upsertRow, if_neg h] at hc
    exact absurd hc h

/-- In a category-distinct budget table that has a row for `nc`, there is
exactly one such row. -/
theorem countP_cat_of_unique {l : List Budget} {nc : String}
    (hu : l.Pairwise (fun a b => a.category ≠ b.category))
    (ha : l.any (fun b => b.category == nc) = true) :
    l.countP (fun b => b.category == nc) = 1 := by
  induction l with
  | nil => simp at ha
  | cons x xs ih =>
    rw [List.pairwise_cons] at hu
    by_cases hx : x.category = nc
    · have h0 : xs.countP (fun b => b.category == nc) = 0 := by
        refine List.countP_eq_zero.mpr (fun b hb => ?_)
        have := hu.1 b hb
        rw [hx] at this
        simp [Ne.symm this]
      simp [List.countP_cons, hx, h0]
    · have ha2 : xs.any (fun b => b.category == nc) = true := by
        rcases List.any_eq_true.mp ha with ⟨b, hb, hbe⟩
        rcases List.mem_cons.mp hb with rfl | hbxs
        · exact absurd (by simpa using hbe) hx
        · exact List.any_eq_true.mpr ⟨b, hbxs, hbe⟩
      simp [List.countP_cons, hx, ih hu.2 ha2]

/-- A successful `set_budget` preserves category-distinctness of the budget
table (the schema's UNIQUE constraint). -/
theorem set_budget_preserves_unique {t : Tenant} {c : String} {L : ℚ}
    {r : SetBudgetResult} {t' : Tenant}
    (h : set_budget specVocab t c L = .ok (r, t'))
    (hu : t.budgets.Pairwise fun a b => a.category ≠ b.category) :
    t'.budgets.Pairwise (fun a b => a.category ≠ b.category) := by
  unfold set_budget at h
  split at h
  · exact Except.noConfusion h
  · rcases hv : validate_category specVocab c none with e | ⟨nc, ns⟩ <;>
      simp only [hv] at h
    · exact Except.noConfusion h
    · split at h
      · simp only [Except.ok.injEq, Prod.mk.injEq] at h
        obtain ⟨-, ht⟩ := h
        subst ht
        exact pairwise_cat_map_upsertRow hu
      · rename_i hany
        simp only [Except.ok.injEq, Prod.mk.injEq] at h
        obtain ⟨-, ht⟩ := h
        subst ht
        simp only [List.any_eq_true, not_exists, not_and] at hany
        refine List.pairwise_append.mpr ⟨hu, List.pairwise_singleton _ _, ?_⟩
        intro a ha b hb
        rcases List.mem_singleton.mp hb with rfl
        intro hcontra
        exact hany a ha (by simpa using hcontra)

/-- One `stepBudget` call preserves category-distinctness. -/
theorem stepBudget_preserves_unique {t : Tenant} (cl : String × ℚ)
    (hu : t.budgets.Pairwise fun a b => a.category ≠ b.category) :
    (stepBudget t cl).budgets.Pairwise (fun a b => a.category ≠ b.category) := by
  unfold stepBudget
  rcases hsb : set_budget specVocab t cl.1 cl.2 with e | ⟨r, t'⟩
  · exact hu
  · exact set_budget_preserves_unique hsb hu

/-- Any sequence of `set_budget` calls preserves category-distinctness. -/
theorem foldl_stepBudget_preserves_unique (calls : List (String × ℚ)) :
    ∀ t : Tenant, t.budgets.Pairwise (fun a b => a.category ≠ b.category) →
      ((calls.foldl stepBudget t).budgets.Pairwise (fun a b => a.category ≠ b.category)) := by
  induction calls with
  | nil => intro t hu; exact hu
  | cons cl cls ih => intro t hu; exact ih _ (stepBudget_preserves_unique cl hu)

/-- Two successive `set_budget` calls on the same raw category leave exactly
one row for the normalized category, carrying the second limit. -/
theorem set_budget_twice {t : Tenant} {c : String} {L1 L2 : ℚ} {nc ns : String}
    (h1 : 0 < L1) (h2 : 0 < L2)
    (hv : validate_category specVocab c none = .ok (nc, ns))
    (hu : t.budgets.Pairwise fun a b => a.category ≠ b.category) :
    ∃ t1 t2,
      set_budget specVocab t c L1 = .ok (⟨nc, L1⟩, t1) ∧
      set_budget specVocab t1 c L2 = .ok (⟨nc, L2⟩, t2) ∧
      t2.budgets.countP (fun b => b.category == nc) = 1 ∧
      ∀ b ∈ t2.budgets, b.category = nc → b.monthly_limit = L2 := by
  by_cases hany : t.budgets.any (fun b => b.category == nc) = true
  · refine ⟨{ t with budgets := t.budgets.map (upsertRow nc L1) },
      { t with budgets := (t.budgets.map (upsertRow nc L1)).map (upsertRow nc L2) },
      set_budget_ok_pos h1 hv hany,
      set_budget_ok_pos h2 hv ?_, ?_, ?_⟩
    · show (t.budgets.map (upsertRow nc L1)).any (fun b => b.category == nc) = true
      rw [any_cat_map_upsertRow]
      exact hany
    · show ((t.budgets.map (upsertRow nc L1)).map (upsertRow nc L2)).countP
        (fun b => b.category == nc) = 1
      rw [countP_cat_map_upsertRow, countP_cat_map_upsertRow]
      exact countP_cat_of_unique hu hany
    · intro b hb hc
      exact mem_map_upsertRow hb hc
  · refine ⟨{ t with
        budgets := t.budgets ++ [(⟨t.nextBudgetId, nc, L1⟩ : Budget)],
        nextBudgetId := t.nextBudgetId + 1 },
      { t with
        budgets := (t.budgets ++ [(⟨t.nextBudgetId, nc, L1⟩ : Budget)]).map (upsertRow nc L2),
        nextBudgetId := t.nextBudgetId + 1 },
      set_budget_ok_neg h1 hv hany,
      set_budget_ok_pos h2 hv ?_, ?_, ?_⟩
    · show (t.budgets ++ [(⟨t.nextBudgetId, nc, L1⟩ : Budget)]).any
        (fun b => b.category == nc) = true
      simp [List.any_append]
    · show ((t.budgets ++ [(⟨t.nextBudgetId, nc, L1⟩ : Budget)]).map (upsertRow nc L2)).countP
        (fun b => b.category == nc) = 1
      rw [countP_cat_map_upsertRow, List.countP_append]
      have h0 : t.budgets.countP (fun b => b.category == nc) = 0 := by
        refine List.countP_eq_zero.mpr (fun b hb => ?_)
        intro hbe
        exact hany (List.any_eq_true.mpr ⟨b, hb, hbe⟩)
      simp [h0, List.countP_cons]
    · intro b hb hc
      exact mem_map_upsertRow hb hc

/-- C6: on a tenant whose budget table has distinct categories (the schema
UNIQUE invariant), `set_budget(cat, L1)` then `set_budget(cat, L2)` leaves
exactly one budget row for the normalized category, with `monthly_limit`
equal to `L2`; and after any sequence of `set_budget` calls the table still
holds at most one row per category. -/
theorem set_budget_upsert (t : Tenant) (c : String) (L1 L2 : ℚ)
    (h1 : 0 < L1) (h2 : 0 < L2)
    (hu : t.budgets.Pairwise fun a b => a.category ≠ b.category) :
    (∀ calls : List (String × ℚ),
      ((calls.foldl stepBudget t).budgets.Pairwise (fun a b => a.category ≠ b.category))) ∧
    (∃ nc ns t1 t2,
      validate_category specVocab c none = .ok (nc, ns) ∧
      set_budget specVocab t c L1 = .ok (⟨nc, L1⟩, t1) ∧
      set_budget specVocab t1 c L2 = .ok (⟨nc, L2⟩, t2) ∧
      t2.budgets.countP (fun b => b.category == nc) = 1 ∧
      ∀ b ∈ t2.budgets, b.category = nc → b.monthly_limit = L2) := by
  constructor
  · intro calls
    exact foldl_stepBudget_preserves_unique calls t hu
  · obtain ⟨nc, ns, l, hv, -, -⟩ := validate_category_ok specVocab (by decide) c none
    obtain ⟨t1, t2, hb1, hb2, hcount, hall⟩ := set_budget_twice h1 h2 hv hu
    exact ⟨nc, ns, t1, t2, hv, hb1, hb2, hcount, hall⟩

/-- Witness for C6 at the spec's §8 upsert scenario: `set_budget("food",
100)` then `set_budget("food", 150)` on a fresh tenant, with the concrete
resulting single row `("food", 150)`. -/
theorem set_budget_upsert_witness :
    (0 : ℚ) < 100 ∧ (0 : ℚ) < 150 ∧
    (emptyTenant.budgets.Pairwise fun a b => a.category ≠ b.category) ∧
    ((∀ calls : List (String × ℚ),
      ((calls.foldl stepBudget emptyTenant).budgets.Pairwise
        (fun a b => a.category ≠ b.category))) ∧
    (∃ nc ns t1 t2,
      validate_category specVocab "food" none = .ok (nc, ns) ∧
      set_budget specVocab emptyTenant "food" 100 = .ok (⟨nc, 100⟩, t1) ∧
      set_budget specVocab t1 "food" 150 = .ok (⟨nc, 150⟩, t2) ∧
      t2.budgets.countP (fun b => b.category == nc) = 1 ∧
      ∀ b ∈ t2.budgets, b.category = nc → b.monthly_limit = 150)) :=
  ⟨by norm_num, by norm_num, List.Pairwise.nil,
    set_budget_upsert emptyTenant "food" 100 150 (by norm_num) (by norm_num)
      List.Pairwise.nil⟩

/-! ## C7 -/

/-- C7: for a valid input, `add_expense` followed by `list_expenses` on the
same tenant yields exactly one record bearing the normalized category and
subcategory, the given date, amount and note, under a freshly assigned id
that belongs to no pre-existing expense (given the AUTOINCREMENT invariant
that all stored ids are below the next rowid). -/
theorem add_list_roundtrip (t : Tenant) (date : String) (amount : ℚ)
    (category subcategory note : String) (ha : 0 < amount)
    (hid : ∀ e ∈ t.expenses, e.id < t.nextExpenseId) :
    ∃ nc ns r t',
      validate_category specVocab category (some subcategory) = .ok (nc, ns) ∧
      add_expense specVocab t date amount category subcategory note = .ok (r, t') ∧
      r.id ∉ t.expenses.map (·.id) ∧
      (list_expenses t').countP (fun e => e.id == r.id) = 1 ∧
      (list_expenses t').countP (fun e => e.id == r.id && e.date == date &&
        e.amount == amount && e.category == nc && e.subcategory == ns &&
        e.note == note) = 1 := by
  obtain ⟨nc, ns, l, hv, -, -⟩ := validate_category_ok specVocab (by decide) category
    (some subcategory)
  have key : ∀ p : Expense → Bool, (∀ e ∈ t.expenses, p e = false) →
      p ⟨t.nextExpenseId, date, amount, nc, ns, note⟩ = true →
      ((t.expenses ++ [(⟨t.nextExpenseId, date, amount, nc, ns, note⟩ : Expense)]).mergeSort
        (fun a b => strLe b.date a.date)).countP p = 1 := by
    intro p hz ho
    rw [List.Perm.countP_eq p (List.mergeSort_perm _ _), List.countP_append]
    rw [List.countP_eq_zero.mpr (fun e he => by simp [hz e he])]
    simp [List.countP_cons, ho]
  refine ⟨nc, ns, ⟨t.nextExpenseId, nc, ns⟩,
    { t with expenses := t.expenses ++ [⟨t.nextExpenseId, date, amount, nc, ns, note⟩],
             nextExpenseId := t.nextExpenseId + 1 }, hv, ?_, ?_, ?_, ?_⟩
  · simp [add_expense, hv, not_le.mpr ha]
  · intro hmem
    obtain ⟨e, he, heq⟩ := List.mem_map.mp hmem
    exact absurd heq (Nat.ne_of_lt (hid e he))
  · exact key _ (fun e he => by simp [Nat.ne_of_lt (hid e he)]) (by simp)
  · exact key _ (fun e he => by simp [Nat.ne_of_lt (hid e he)]) (by simp)

/-- Witness for C7: an expense added to a fresh tenant appears exactly once
in the listing. -/
theorem add_list_roundtrip_witness :
    (0 : ℚ) < 25 ∧ (∀ e ∈ emptyTenant.expenses, e.id < emptyTenant.nextExpenseId) ∧
    (∃ nc ns r t',
      validate_category specVocab "food" (some "groceries") = .ok (nc, ns) ∧
      add_expense specVocab emptyTenant "2024-05-01" 25 "food" "groceries" "x" =
        .ok (r, t') ∧
      r.id ∉ emptyTenant.expenses.map (·.id) ∧
      (list_expenses t').countP (fun e => e.id == r.id) = 1 ∧
      (list_expenses t').countP (fun e => e.id == r.id && e.date == "2024-05-01" &&
        e.amount == 25 && e.category == nc && e.subcategory == ns &&
        e.note == "x") = 1) :=
  ⟨by norm_num, by simp [emptyTenant],
    add_list_roundtrip emptyTenant "2024-05-01" 25 "food" "groceries" "x"
      (by norm_num) (by simp [emptyTenant])⟩

/-! ## C8 -/

/-- C8 counterexample: the claim says that on a category update with no
subcategory supplied, the stored subcategory is the existing subcategory
re-normalized against the new category.  In the code both branches of
`if subcategory is None` are identical: the pair from
`validate_category(category, None)` is written, so the existing subcategory
`"groceries"` (which re-normalizes to itself against `"food"`) is replaced
by the default `"other"`. -/
theorem update_expense_subcategory_counterexample :
    update_expense specVocab
        ⟨[⟨1, "2024-01-01", 10, "food", "groceries", ""⟩], [], [], [], 2, 1, 1, 1⟩
        1 none none (some "food") none none =
      .ok (.ok 1, ⟨[⟨1, "2024-01-01", 10, "food", "other", ""⟩], [], [], [], 2, 1, 1, 1⟩) ∧
    validate_category specVocab "food" (some "groceries") = .ok ("food", "groceries") ∧
    ("other" : String) ≠ "groceries" :=
  ⟨rfl, rfl, by decide⟩

/-- C8 (amended): when `update_expense` is called with a new category, the
stored (category, subcategory) pair is `validate_category(new_category,
caller_subcategory)`: a caller-supplied subcategory is normalized against
the new category; with NO subcategory supplied, the EMPTY subcategory is
normalized against the new category (yielding the category's default,
`"other"` when available else its first subcategory) — the expense's
existing subcategory is ignored, not re-normalized. -/
theorem update_expense_category_normalization (t : Tenant) (expense_id : Nat)
    (c : String) (sub : Option String) (note : Option String) (nc ns : String)
    (hv : validate_category specVocab c sub = .ok (nc, ns))
    (hex : t.expenses.any (fun e => e.id == expense_id) = true) :
    ∃ t', update_expense specVocab t expense_id none none (some c) sub note =
        .ok (.ok expense_id, t') ∧
      ∀ e ∈ t'.expenses, e.id = expense_id → e.category = nc ∧ e.subcategory = ns := by
  refine ⟨{ t with expenses := t.expenses.map (fun e =>
      if e.id = expense_id then applyExpenseUpdates e none none (some (nc, ns)) none note
      else e) }, ?_, ?_⟩
  · simp [update_expense, hv, finishExpenseUpdate, hex]
  · intro e he heq
    obtain ⟨a, ha, rfl⟩ := List.mem_map.mp he
    by_cases h : a.id = expense_id
    · simp [h, applyExpenseUpdates]
    · rw [if_neg h] at heq
      exact absurd heq h

/-- Witness for C8 (amended): updating the category to `"food"` with no
subcategory stores the default `"other"`, ignoring the stored
`"groceries"`. -/
theorem update_expense_category_normalization_witness :
    validate_category specVocab "food" none = .ok ("food", "other") ∧
    (⟨[⟨1, "2024-01-01", 10, "food", "groceries", ""⟩], [], [], [], 2, 1, 1, 1⟩ :
      Tenant).expenses.any (fun e => e.id == 1) = true ∧
    (∃ t', update_expense specVocab
        ⟨[⟨1, "2024-01-01", 10, "food", "groceries", ""⟩], [], [], [], 2, 1, 1, 1⟩
        1 none none (some "food") none none = .ok (.ok 1, t') ∧
      ∀ e ∈ t'.expenses, e.id = 1 → e.category = "food" ∧ e.subcategory = "other") :=
  ⟨rfl, rfl,
    update_expense_category_normalization
      ⟨[⟨1, "2024-01-01", 10, "food", "groceries", ""⟩], [], [], [], 2, 1, 1, 1⟩
      1 "food" none none "food" "other" rfl rfl⟩

/-! ## C10 -/

/-- An unknown stripped-lowercased category normalizes to `"misc"`. -/
theorem validate_category_unknown {v : Vocab} {c : String} {sub : Option String}
    {nc ns : String} (h0 : lookupV v (pyLower (pyStrip c)) = none)
    (h : validate_category v c sub = .ok (nc, ns)) : nc = "misc" := by
  unfold validate_category at h
  simp only [h0, Option.isSome_none, Bool.false_eq_true, if_false] at h
  rcases hm : lookupV v "misc" with _ | l <;> simp only [hm] at h
  · exact Except.noConfusion h
  · rcases hp : pickSub l (pyLower (pyStrip (sub.getD ""))) with e | s <;>
      simp only [hp, Except.map] at h
    · exact Except.noConfusion h
    · simp only [Except.ok.injEq, Prod.mk.injEq] at h
      exact h.1.symm

/-- A budget table whose every row misses the lowercased raw category makes
`check_budget_status` answer `no_budget` and `delete_budget` answer
`not_found` with the tenant unchanged. -/
theorem check_delete_miss {t' : Tenant} {c : String} {year month : Nat}
    (hmiss : ∀ b ∈ t'.budgets, b.category ≠ pyLower c) :
    check_budget_status t' c year month = .no_budget ∧
    delete_budget t' c = (.not_found, t') := by
  have hfind : t'.budgets.find? (fun b => b.category == pyLower c) = none :=
    List.find?_eq_none.mpr (fun b hb => by simp [hmiss b hb])
  constructor
  · unfold check_budget_status
    simp only [hfind]
  · unfold delete_budget
    have hkeep : t'.budgets.filter (fun b => !(b.category == pyLower c)) = t'.budgets :=
      List.filter_eq_self.mpr (fun b hb => by simp [hmiss b hb])
    simp [hkeep]

/-- C10: `set_budget` stores the Normalizer-resolved category (an
unknown/unlisted raw category becomes `"misc"`), while `check_budget_status`
and `delete_budget` look up rows by the merely lowercased raw string without
trimming or vocabulary normalization; hence for any raw category string
whose lowercasing is not itself a vocabulary key — on a tenant whose stored
budget categories are all vocabulary keys, as `set_budget` alone produces —
`set_budget(c, L)` immediately followed by `check_budget_status(c, y, m)` on
the same tenant returns `no_budget`, and `delete_budget(c)` likewise finds
nothing. -/
theorem set_budget_check_budget_mismatch (t : Tenant) (c : String) (L : ℚ)
    (year month : Nat) (hL : 0 < L)
    (hc : lookupV specVocab (pyLower c) = none)
    (hinv : ∀ b ∈ t.budgets, (lookupV specVocab b.category).isSome = true) :
    ∃ nc ns t',
      validate_category specVocab c none = .ok (nc, ns) ∧
      (lookupV specVocab nc).isSome = true ∧
      (lookupV specVocab (pyLower (pyStrip c)) = none → nc = "misc") ∧
      set_budget specVocab t c L = .ok (⟨nc, L⟩, t') ∧
      (∃ b ∈ t'.budgets, b.category = nc ∧ b.monthly_limit = L) ∧
      check_budget_status t' c year month = .no_budget ∧
      delete_budget t' c = (.not_found, t') := by
  obtain ⟨nc, ns, l, hv, hlk, -⟩ := validate_category_ok specVocab (by decide) c none
  have hncKey : (lookupV specVocab nc).isSome = true := by rw [hlk]; rfl
  have hncNe : ∀ s : String, (lookupV specVocab s).isSome = true → s ≠ pyLower c := by
    intro s hs hcontra
    rw [hcontra, hc] at hs
    exact Bool.noConfusion hs
  by_cases hany : t.budgets.any (fun b => b.category == nc) = true
  · obtain ⟨a, ha, hae⟩ := List.any_eq_true.mp hany
    have hac : a.category = nc := by simpa using hae
    have hmiss : ∀ b ∈ (t.budgets.map (upsertRow nc L)), b.category ≠ pyLower c := by
      intro b hb
      obtain ⟨a2, ha2, rfl⟩ := List.mem_map.mp hb
      rw [upsertRow_category]
      exact hncNe _ (hinv a2 ha2)
    obtain ⟨hchk, hdel⟩ :=
      @check_delete_miss { t with budgets := t.budgets.map (upsertRow nc L) }
        c year month hmiss
    refine ⟨nc, ns, _, hv, hncKey, fun h0 => validate_category_unknown h0 hv,
      set_budget_ok_pos hL hv hany, ?_, hchk, hdel⟩
    refine ⟨upsertRow nc L a, List.mem_map.mpr ⟨a, ha, rfl⟩, ?_, ?_⟩
    · rw [upsertRow_category]
      exact hac
    · exact mem_map_upsertRow (List.mem_map.mpr ⟨a, ha, rfl⟩)
        (by rw [upsertRow_category]; exact hac)
  · have hmiss : ∀ b ∈ (t.budgets ++ [(⟨t.nextBudgetId, nc, L⟩ : Budget)]),
        b.category ≠ pyLower c := by
      intro b hb
      rcases List.mem_append.mp hb with hb | hb
      · exact hncNe _ (hinv b hb)
      · rcases List.mem_singleton.mp hb with rfl
        exact hncNe nc hncKey
    obtain ⟨hchk, hdel⟩ :=
      @check_delete_miss
        { t with budgets := t.budgets ++ [⟨t.nextBudgetId, nc, L⟩],
                 nextBudgetId := t.nextBudgetId + 1 }
        c year month hmiss
    refine ⟨nc, ns, _, hv, hncKey, fun h0 => validate_category_unknown h0 hv,
      set_budget_ok_neg hL hv hany, ?_, hchk, hdel⟩
    exact ⟨⟨t.nextBudgetId, nc, L⟩, List.mem_append.mpr (.inr (List.mem_singleton.mpr rfl)),
      rfl, rfl⟩

/-- Witness for C10 at the raw category `"Unknown Cat"` (not a vocabulary
key after lowercasing; normalizes to `"misc"`). -/
theorem set_budget_check_budget_mismatch_witness :
    (0 : ℚ) < 50 ∧ lookupV specVocab (pyLower "Unknown Cat") = none ∧
    (∃ nc ns t',
      validate_category specVocab "Unknown Cat" none = .ok (nc, ns) ∧
      (lookupV specVocab nc).isSome = true ∧
      (lookupV specVocab (pyLower (pyStrip "Unknown Cat")) = none → nc = "misc") ∧
      set_budget specVocab emptyTenant "Unknown Cat" 50 = .ok (⟨nc, 50⟩, t') ∧
      (∃ b ∈ t'.budgets, b.category = nc ∧ b.monthly_limit = 50) ∧
      check_budget_status t' "Unknown Cat" 2024 3 = .no_budget ∧
      delete_budget t' "Unknown Cat" = (.not_found, t')) :=
  ⟨by norm_num, by decide,
    set_budget_check_budget_mismatch emptyTenant "Unknown Cat" 50 2024 3
      (by norm_num) (by decide) (by simp [emptyTenant])⟩

end ExpenseTracker
